import Mathlib

/-!
# Wellness session platform — verification of the editor state machine and session routes

Shallow embedding of the behavior relevant to the auto-save / draft-publish
workflow of the Wellness repository:

* the frontend `SessionEditor` component (src/src/components/Navbar.jsx,
  third component in the file): buffer state, auto-save guards, debounce
  timer, save-draft and publish handlers;
* the backend session routes (src/backend/middleware/auth.js, router part):
  save-draft, publish, get-one, pagination;
* the Mongoose session schema (src/backend/models/Session.js);
* the auth middleware (src/backend/middleware/auth.js, `authenticateToken`)
  and the axios response interceptor (src/src/utils/api.js).

Strings are modelled by `String`, timestamps by `Nat` (only ordering and the
5-second delay matter).  The JavaScript string primitives used by the code
(`trim`, `toLowerCase`, `startsWith`) are modelled as functions on the
character list of a `String` so that every definition evaluates by kernel
reduction.  Asynchronous handlers are modelled by their synchronous prefix:
the state update performed before awaiting the network call, together with
the request issued (if any).
-/

namespace Wellness

/-- JS `String.prototype.trim()`: strip leading and trailing whitespace
(Unicode whitespace approximated by `Char.isWhitespace`). -/
def jsTrim (s : String) : String :=
  ⟨((s.data.dropWhile Char.isWhitespace).reverse.dropWhile Char.isWhitespace).reverse⟩

/-- JS `String.prototype.toLowerCase()` (ASCII case mapping). -/
def jsToLower (s : String) : String :=
  ⟨s.data.map Char.toLower⟩

/-- JS `String.prototype.startsWith(p)`. -/
def jsStartsWith (s p : String) : Bool :=
  s.data.take p.data.length == p.data

/-- The `status` enum of the session schema (src/backend/models/Session.js,
line 30): `['draft', 'published']`. -/
inductive Status where
  | draft
  | published
  deriving DecidableEq, Repr

/-- The editor buffer: the `session` state of `SessionEditor`
(Navbar.jsx lines 371-376).  `_id` is absent (`none`) for a brand-new
record until the first save adopts the id returned by the store. -/
structure EditorSession where
  _id : Option String
  title : String
  tags : List String
  json_file_url : String
  status : Status
  deriving DecidableEq, Repr

/-- The component state of `SessionEditor` around the buffer:
`hasUnsavedChanges` (line 381), `isSaving` (line 379), `lastSaved`
(line 380, modelled as an optional timestamp). -/
structure EditorState where
  session : EditorSession
  hasUnsavedChanges : Bool
  isSaving : Bool
  lastSaved : Option Nat
  deriving DecidableEq, Repr

/-- Initial `session` state for a brand-new editor (Navbar.jsx lines
371-376): empty title, no tags, a pre-filled example data URL, status
draft. -/
def initialSession : EditorSession :=
  { _id := none
  , title := ""
  , tags := []
  , json_file_url := "https://example.com/data/users.json"
  , status := Status.draft }

/-- The empty-buffer test of `autoSave` (Navbar.jsx line 389):
`!session.title?.trim() && !session.json_file_url?.trim() && session.tags.length === 0`. -/
def emptyBuffer (s : EditorSession) : Bool :=
  jsTrim s.title == "" && jsTrim s.json_file_url == "" && s.tags.isEmpty

/-- Synchronous prefix of `autoSave` (Navbar.jsx lines 385-413): return
early when there is nothing unsaved or a save is in flight (line 386),
return early on an entirely empty buffer (lines 388-391), otherwise set
`isSaving` and issue the save-draft request with the buffer contents.
The result pairs the updated component state with the request issued,
if any. -/
def autoSaveStep (st : EditorState) : EditorState × Option EditorSession :=
  if !st.hasUnsavedChanges || st.isSaving then (st, none)
  else if emptyBuffer st.session then (st, none)
  else ({ st with isSaving := true }, some st.session)

/-- Synchronous prefix of `handleSaveDraft` (Navbar.jsx lines 497-513):
sets `isSaving` and issues the save-draft request unconditionally — no
debounce wait, no emptiness check. -/
def handleSaveDraftStep (st : EditorState) : EditorState × Option EditorSession :=
  ({ st with isSaving := true }, some st.session)

/-- A user click on the Save Draft button.  The button carries
`disabled={isSaving}` (Navbar.jsx line 612), so while a persist is in
flight the click never reaches `handleSaveDraft`. -/
def saveDraftClick (st : EditorState) : EditorState × Option EditorSession :=
  if st.isSaving then (st, none) else handleSaveDraftStep st

/-- `validateUrl` (Navbar.jsx lines 488-495).  The host's `new URL(url)`
constructor (succeeds or throws) is not code of this repository; it is
abstracted by the parameter `urlCtorOk`. -/
def validateUrl (urlCtorOk : String → Bool) (url : String) : Bool :=
  urlCtorOk url && (jsStartsWith url "http://" || jsStartsWith url "https://")

/-- Outcome of the synchronous validation prefix of `handlePublish`:
either an early rejection with the toast message shown, or the publish
request issued to the persistence layer. -/
inductive PublishOutcome where
  | rejected (msg : String)
  | request (s : EditorSession)
  deriving DecidableEq, Repr

/-- Validation prefix of `handlePublish` (Navbar.jsx lines 515-543): the
three early returns (empty trimmed title, empty trimmed URL, URL failing
`validateUrl`) fire before `api.publishSession` is called; otherwise the
buffer is sent. -/
def handlePublish (urlCtorOk : String → Bool) (st : EditorState) : PublishOutcome :=
  if jsTrim st.session.title == "" then
    PublishOutcome.rejected "Title is required for publishing"
  else if jsTrim st.session.json_file_url == "" then
    PublishOutcome.rejected "JSON file URL is required for publishing"
  else if !validateUrl urlCtorOk st.session.json_file_url then
    PublishOutcome.rejected "Please enter a valid URL (must start with http:// or https://)"
  else
    PublishOutcome.request st.session

/-- The trailing-edge debounce of the auto-save timer (Navbar.jsx lines
416-425 and 462-470), as a function from the sequence of edit timestamps
to the timestamps at which the automatic persist fires.  The second
argument is the pending timer deadline, if a timer is outstanding:

* an edit at time `t` cancels any pending timer that has not yet fired
  (`clearTimeout` in `handleInputChange`, line 468, and the effect
  cleanup, line 423) and arms a fresh one with deadline `t + delay`
  (`setTimeout(autoSave, 5000)`, lines 418-420);
* a pending deadline `d` that is reached before the next edit fires the
  automatic persist; the fire clears `hasUnsavedChanges`, so no further
  timer is armed until the next edit. -/
def debounceFires (delay : Nat) : List Nat → Option Nat → List Nat
  | [], none => []
  | [], some d => [d]
  | t :: ts, none => debounceFires delay ts (some (t + delay))
  | t :: ts, some d =>
    if d ≤ t then d :: debounceFires delay ts (some (t + delay))
    else debounceFires delay ts (some (t + delay))

/-! ## Backend: session schema and routes -/

/-- A character admitted by `.` in a JS regex (no line terminators; the
astral cases ` `, ` ` do not arise for the inputs considered). -/
def regexDotMatches (c : Char) : Bool :=
  c != '\n' && c != '\r'

/-- `.+` applied to the characters following the scheme. -/
def tailMatchesDotPlus (cs : List Char) : Bool :=
  match cs with
  | [] => false
  | c :: _ => regexDotMatches c

/-- The `match` validator regex of `json_file_url`
(src/backend/models/Session.js line 26): `/^https?:\/\/.+/` — the string
starts with `http://` or `https://` followed by at least one character
matched by `.`. -/
def matchesUrlPattern (url : String) : Bool :=
  (jsStartsWith url "https://" && tailMatchesDotPlus (url.data.drop 8))
  || (jsStartsWith url "http://" && tailMatchesDotPlus (url.data.drop 7))

/-- A session document as stored by the backend
(src/backend/models/Session.js lines 3-45).  `created_at`/`updated_at`
are managed timestamps and play no role in the claims. -/
structure SessionDoc where
  user_id : String
  title : String
  tags : List String
  json_file_url : String
  status : Status
  deriving DecidableEq, Repr

/-- The Mongoose setters of the session schema, applied before validation:
`trim` on `title` (line 13), `trim` and `lowercase` on each tag (lines
18-19), `trim` on `json_file_url` (line 25). -/
def normalizeDoc (d : SessionDoc) : SessionDoc :=
  { d with
    title := jsTrim d.title
  , tags := d.tags.map (fun t => jsToLower (jsTrim t))
  , json_file_url := jsTrim d.json_file_url }

/-- The Mongoose validators of the session schema, run on the normalized
document: `required` rejects an empty string (title line 12, url line 24),
`maxlength` 200 on the title (line 14) and 50 on each tag (line 20), the
url `match` regex (line 26; Mongoose skips `match` on an empty string, but
`required` already rejects that case).  The `status` enum (line 30) holds
by the `Status` type; `user_id` is always supplied by the routes from
`req.user`. -/
def validateDoc (d : SessionDoc) : Bool :=
  d.title != "" && decide (d.title.length ≤ 200)
  && d.tags.all (fun t => decide (t.length ≤ 50))
  && d.json_file_url != "" && matchesUrlPattern d.json_file_url

/-- The session record store: documents keyed by id. -/
abbrev Store := List (String × SessionDoc)

/-- `Session.findOne({ _id: i, user_id: uid })`: the lookup used by the
get-one, update and delete paths (auth.js lines 120-123, 153-157). -/
def findOwned (store : Store) (uid i : String) : Option SessionDoc :=
  match store.find? (fun p => p.1 == i && p.2.user_id == uid) with
  | some p => some p.2
  | none => none

/-- Replace the document stored under id `i`
(`Session.findOneAndUpdate` write). -/
def upsert (store : Store) (i : String) (d : SessionDoc) : Store :=
  store.map (fun p => if p.1 == i then (i, d) else p)

/-- Request body of the save-draft and publish routes:
`{ id, title, tags, json_file_url }` (auth.js lines 139, 187), each field
possibly absent (`none` models JS `undefined`). -/
structure SessionBody where
  id : Option String
  title : Option String
  tags : Option (List String)
  json_file_url : Option String
  deriving DecidableEq, Repr

/-- JS `x || d` for a possibly-undefined string field: the default is
taken when the field is absent or the empty string. -/
def jsOrDefault (o : Option String) (d : String) : String :=
  match o with
  | some s => if s == "" then d else s
  | none => d

/-- JS truthiness of a possibly-undefined string (`if (id)`). -/
def jsTruthy (o : Option String) : Bool :=
  match o with
  | some s => s != ""
  | none => false

/-- `!x || !x.trim()`: the blank test used by the publish route guards
(auth.js lines 190, 194). -/
def jsBlank (o : Option String) : Bool :=
  match o with
  | some s => s == "" || jsTrim s == ""
  | none => true

/-- `Array.isArray(tags) ? tags.filter(tag => tag.trim()) : []`
(auth.js lines 144, 201). -/
def tagsOfBody (o : Option (List String)) : List String :=
  match o with
  | some ts => ts.filter (fun t => jsTrim t != "")
  | none => []

/-- The `sessionData` built by POST /my-sessions/save-draft (auth.js lines
141-147): title defaulted to `'Untitled Session'` when falsy, url defaulted
to `''`, status always draft. -/
def saveDraftData (uid : String) (b : SessionBody) : SessionDoc :=
  { user_id := uid
  , title := jsOrDefault b.title "Untitled Session"
  , tags := tagsOfBody b.tags
  , json_file_url := jsOrDefault b.json_file_url ""
  , status := Status.draft }

/-- The update-or-create block shared verbatim by the save-draft route
(auth.js lines 149-166) and the publish route (auth.js lines 206-223).
When `idField` is truthy the owned record is updated
(`Session.findOneAndUpdate` with `runValidators: true`), otherwise a
record is created under the freshly allocated id `newId` (`new Session`
then `save()`).  Mongoose applies the schema setters and validators to
either write; a `ValidationError` is answered with status 400, a missing
record with 404.  The result is the new store contents, the record id,
and the stored document. -/
def writeSession (store : Store) (uid : String) (idField : Option String)
    (d0 : SessionDoc) (newId : String) :
    Except Nat (Store × String × SessionDoc) :=
  if !validateDoc (normalizeDoc d0) then Except.error 400
  else if jsTruthy idField then
    match idField with
    | some i =>
      match findOwned store uid i with
      | none => Except.error 404
      | some _ => Except.ok (upsert store i (normalizeDoc d0), i, normalizeDoc d0)
    | none => Except.error 404
  else Except.ok ((newId, normalizeDoc d0) :: store, newId, normalizeDoc d0)

/-- POST /my-sessions/save-draft (auth.js lines 137-182): build the
draft `sessionData` and write it. -/
def saveDraftRoute (store : Store) (uid : String) (b : SessionBody)
    (newId : String) : Except Nat (Store × String × SessionDoc) :=
  writeSession store uid b.id (saveDraftData uid b) newId

/-- The `sessionData` built by POST /my-sessions/publish (auth.js lines
198-204): trimmed title and url, status always published. -/
def publishData (uid : String) (b : SessionBody) : SessionDoc :=
  { user_id := uid
  , title := jsTrim (b.title.getD "")
  , tags := tagsOfBody b.tags
  , json_file_url := jsTrim (b.json_file_url.getD "")
  , status := Status.published }

/-- POST /my-sessions/publish (auth.js lines 185-239): 400 when the title
is missing or blank (lines 190-192) or the url is missing or blank (lines
194-196), both before any store access; then the same update-or-create
write as save-draft, with status published and schema validation. -/
def publishRoute (store : Store) (uid : String) (b : SessionBody)
    (newId : String) : Except Nat (Store × String × SessionDoc) :=
  if jsBlank b.title then Except.error 400
  else if jsBlank b.json_file_url then Except.error 400
  else writeSession store uid b.id (publishData uid b) newId

/-- GET /my-sessions/:id (auth.js lines 118-134): the owned record, or
404. -/
def getSessionRoute (store : Store) (uid : String) (i : String) :
    Except Nat SessionDoc :=
  match findOwned store uid i with
  | some d => Except.ok d
  | none => Except.error 404

/-! ## Backend: auth middleware, client interceptor, pagination -/

/-- Outcome of `jwt.verify` in `authenticateToken`: a decoded user id, a
`TokenExpiredError`, or a `JsonWebTokenError` (malformed token or bad
signature). -/
inductive VerifyOutcome where
  | ok (userId : String)
  | expired
  | malformed
  deriving DecidableEq, Repr

/-- `authenticateToken` (src/backend/middleware/auth.js lines 4-34):
`token` is the bearer token extracted from the Authorization header
(`none` when absent), `verify` models `jwt.verify`, `findUser` models the
`User.findById` existence check.  Missing token: 401 (line 10); expired:
401 (line 25); decoded but user gone: 401 (line 18); malformed: 403
(line 28).  On success the request proceeds with the user id. -/
def authenticateToken (findUser : String → Bool)
    (verify : String → VerifyOutcome) (token : Option String) :
    Except Nat String :=
  match token with
  | none => Except.error 401
  | some t =>
    match verify t with
    | VerifyOutcome.ok uid =>
      if findUser uid then Except.ok uid else Except.error 401
    | VerifyOutcome.expired => Except.error 401
    | VerifyOutcome.malformed => Except.error 403

/-- Reaction of the axios response interceptor to an error response. -/
inductive ClientReaction where
  | teardownAndRedirect
  | surfaceError
  deriving DecidableEq, Repr

/-- The response interceptor (src/src/utils/api.js lines 27-40): exactly on
status 401 it removes the stored token and user and redirects to /login;
every other error status is surfaced as an error message. -/
def responseInterceptor (status : Nat) : ClientReaction :=
  if status == 401 then ClientReaction.teardownAndRedirect
  else ClientReaction.surfaceError

/-- The pagination object returned by GET /sessions (auth.js lines 69-77)
and GET /my-sessions (auth.js lines 102-110): both compute
`totalPages = Math.ceil(total / limit)` (ceiling division for a positive
integer limit) and `hasNextPage = page * limit < total`. -/
structure Pagination where
  currentPage : Nat
  totalPages : Nat
  totalSessions : Nat
  hasNextPage : Bool
  deriving DecidableEq, Repr

/-- Build the pagination response fields from the parsed query parameters
and the document count. -/
def paginationOf (page limit total : Nat) : Pagination :=
  { currentPage := page
  , totalPages := (total + limit - 1) / limit
  , totalSessions := total
  , hasNextPage := decide (page * limit < total) }

/-- Sample idle editor state (no unsaved changes, no save in flight),
used as a concrete witness input. -/
def sampleIdleState : EditorState :=
  { session := initialSession, hasUnsavedChanges := false
  , isSaving := false, lastSaved := none }

/-- Sample save-draft request body with the title field absent, used as a
concrete witness input. -/
def sampleDraftBody : SessionBody :=
  ⟨none, none, some ["yoga"], some "https://example.com/d.json"⟩

/-- Sample publish request body (the spec's "Morning Flow" example), used
as a concrete witness input. -/
def samplePublishBody : SessionBody :=
  ⟨none, some "Morning Flow", some ["yoga"], some "https://example.com/d.json"⟩

/-- The document the publish route stores for `samplePublishBody`. -/
def samplePublished : SessionDoc :=
  ⟨"u1", "Morning Flow", ["yoga"], "https://example.com/d.json", Status.published⟩

/-! ## Claims -/

/-- A document accepted by the schema validators has a non-empty title,
a non-empty URL, and a URL matching the `http(s)://` pattern. -/
theorem validateDoc_props (d : SessionDoc) (h : validateDoc d = true) :
    d.title ≠ "" ∧ d.json_file_url ≠ "" ∧ matchesUrlPattern d.json_file_url = true := by
  simp only [validateDoc, Bool.and_eq_true, bne_iff_ne, ne_eq, decide_eq_true_eq] at h
  exact ⟨h.1.1.1.1, h.1.2, h.2⟩

/-- Every successful write of `writeSession` stores the normalized
document, which passed the schema validators. -/
theorem writeSession_ok (store : Store) (uid : String) (idField : Option String)
    (d0 : SessionDoc) (newId : String) (st : Store) (i : String) (d : SessionDoc)
    (hok : writeSession store uid idField d0 newId = Except.ok (st, i, d)) :
    d = normalizeDoc d0 ∧ validateDoc (normalizeDoc d0) = true := by
  unfold writeSession at hok
  cases hv : validateDoc (normalizeDoc d0) with
  | false => rw [hv] at hok; simp at hok
  | true =>
    rw [hv] at hok
    simp only [Bool.not_true, Bool.false_eq_true, if_false] at hok
    refine ⟨?_, rfl⟩
    split at hok
    · split at hok
      · split at hok
        · exact absurd hok (by simp)
        · simp only [Except.ok.injEq, Prod.mk.injEq] at hok
          exact hok.2.2.symm
      · exact absurd hok (by simp)
    · simp only [Except.ok.injEq, Prod.mk.injEq] at hok
      exact hok.2.2.symm

/-- C5: the publish endpoint rejects a request with a missing or blank
title, or a missing or blank URL, with status 400 before any store
access; and every record it successfully writes has status published, a
non-empty title, and a non-empty URL matching the `http(s)://` pattern —
so no publish write can violate the published-record invariant. -/
theorem publish_enforces_invariant (store : Store) (uid : String)
    (b : SessionBody) (newId : String) :
    (jsBlank b.title = true → publishRoute store uid b newId = Except.error 400) ∧
    (jsBlank b.title = false → jsBlank b.json_file_url = true →
      publishRoute store uid b newId = Except.error 400) ∧
    (∀ st i d, publishRoute store uid b newId = Except.ok (st, i, d) →
      d.status = Status.published ∧ d.title ≠ "" ∧ d.json_file_url ≠ "" ∧
      matchesUrlPattern d.json_file_url = true) := by
  refine ⟨fun h => by simp [publishRoute, h],
    fun h1 h2 => by simp [publishRoute, h1, h2], ?_⟩
  intro st i d hok
  unfold publishRoute at hok
  cases h1 : jsBlank b.title with
  | true => rw [h1] at hok; simp at hok
  | false =>
    cases h2 : jsBlank b.json_file_url with
    | true => rw [h1, h2] at hok; simp at hok
    | false =>
      rw [h1, h2] at hok
      simp only [Bool.false_eq_true, if_false] at hok
      obtain ⟨hd, hv⟩ := writeSession_ok _ _ _ _ _ _ _ _ hok
      subst hd
      obtain ⟨p1, p2, p3⟩ := validateDoc_props _ hv
      exact ⟨rfl, p1, p2, p3⟩

/-- Witness for `publish_enforces_invariant`: the record stored for the
"Morning Flow" publish request satisfies the invariant. -/
theorem publish_enforces_invariant_witness :
    samplePublished.status = Status.published ∧ samplePublished.title ≠ "" ∧
    samplePublished.json_file_url ≠ "" ∧
    matchesUrlPattern samplePublished.json_file_url = true :=
  (publish_enforces_invariant [] "u1" samplePublishBody "s1").2.2
    [("s1", samplePublished)] "s1" samplePublished rfl

/-- C6 counterexample: the explicit save-as-draft of a fully empty buffer
(empty title, empty URL, no tags) does not succeed: the schema requires a
non-empty matching URL even for drafts, so the server answers 400 and no
record is persisted. -/
theorem saveDraft_empty_buffer_rejected :
    saveDraftRoute [] "u1" ⟨none, some "", some [], some ""⟩ "s1"
      = Except.error 400 := rfl

/-- C6 (amended): the explicit save-as-draft persists immediately —
bypassing the debounce timer and the emptiness guard — and always writes
status draft (an absent or empty title is replaced by "Untitled
Session"), but it succeeds only when the normalized record passes the
schema validators; in particular a buffer with an empty or non-matching
URL is rejected with 400 (see `saveDraft_empty_buffer_rejected`). -/
theorem saveDraft_immediate_draft (st : EditorState) (store : Store)
    (uid : String) (b : SessionBody) (newId : String)
    (hsv : st.isSaving = false) (hid : b.id = none)
    (hval : validateDoc (normalizeDoc (saveDraftData uid b)) = true) :
    (saveDraftClick st).2 = some st.session ∧
    (saveDraftData uid b).status = Status.draft ∧
    saveDraftRoute store uid b newId
      = Except.ok ((newId, normalizeDoc (saveDraftData uid b)) :: store, newId,
          normalizeDoc (saveDraftData uid b)) ∧
    (normalizeDoc (saveDraftData uid b)).status = Status.draft := by
  refine ⟨by simp [saveDraftClick, handleSaveDraftStep, hsv], rfl, ?_, rfl⟩
  unfold saveDraftRoute writeSession
  rw [hid, hval]
  simp [jsTruthy]

/-- Witness for `saveDraft_immediate_draft`: saving a buffer with no
title from an idle editor persists at once with status draft. -/
theorem saveDraft_immediate_draft_witness :
    (saveDraftClick sampleIdleState).2 = some sampleIdleState.session ∧
    (saveDraftData "u1" sampleDraftBody).status = Status.draft ∧
    saveDraftRoute [] "u1" sampleDraftBody "s1"
      = Except.ok ([("s1", normalizeDoc (saveDraftData "u1" sampleDraftBody))], "s1",
          normalizeDoc (saveDraftData "u1" sampleDraftBody)) ∧
    (normalizeDoc (saveDraftData "u1" sampleDraftBody)).status = Status.draft :=
  saveDraft_immediate_draft sampleIdleState [] "u1" sampleDraftBody "s1" rfl rfl rfl

/-- C8 counterexample: a buffer saved with an empty title loads back with
title "Untitled Session", not the empty title that was saved, so
save-draft followed by load-by-id does not return the same title for
every buffer. -/
theorem roundtrip_title_mutated :
    saveDraftRoute [] "u1" ⟨none, some "", some ["yoga"], some "https://example.com/d.json"⟩ "s1"
      = Except.ok ([("s1", ⟨"u1", "Untitled Session", ["yoga"], "https://example.com/d.json", Status.draft⟩)],
          "s1", ⟨"u1", "Untitled Session", ["yoga"], "https://example.com/d.json", Status.draft⟩) ∧
    getSessionRoute
        [("s1", ⟨"u1", "Untitled Session", ["yoga"], "https://example.com/d.json", Status.draft⟩)]
        "u1" "s1"
      = Except.ok ⟨"u1", "Untitled Session", ["yoga"], "https://example.com/d.json", Status.draft⟩ ∧
    ("Untitled Session" : String) ≠ "" :=
  ⟨rfl, rfl, by decide⟩

/-- C8 (amended): for every buffer already in stored form — trimmed
non-empty title within 200 characters, trimmed lowercase non-empty tags
within 50 characters, trimmed URL matching the `http(s)://` pattern —
saving it via save-draft and loading the resulting record by its id
returns exactly the same title, tags and data URL, with status draft. -/
theorem saveDraft_roundtrip_normalized (store : Store)
    (uid newId title url : String) (tags : List String)
    (ht : jsTrim title = title) (ht0 : title ≠ "") (htl : title.length ≤ 200)
    (htags : ∀ x ∈ tags, jsToLower (jsTrim x) = x ∧ jsTrim x ≠ "" ∧ x.length ≤ 50)
    (hu : jsTrim url = url) (hup : matchesUrlPattern url = true) :
    saveDraftRoute store uid ⟨none, some title, some tags, some url⟩ newId
      = Except.ok ((newId, ⟨uid, title, tags, url, Status.draft⟩) :: store, newId,
          ⟨uid, title, tags, url, Status.draft⟩) ∧
    getSessionRoute ((newId, ⟨uid, title, tags, url, Status.draft⟩) :: store) uid newId
      = Except.ok ⟨uid, title, tags, url, Status.draft⟩ := by
  have hu0 : url ≠ "" := by
    intro h
    rw [h] at hup
    exact absurd hup (by decide)
  have hmap : tags.map (fun t => jsToLower (jsTrim t)) = tags := by
    conv_rhs => rw [← List.map_id tags]
    exact List.map_congr_left (fun x hx => (htags x hx).1)
  have hfil : tags.filter (fun t => jsTrim t != "") = tags :=
    List.filter_eq_self.mpr (fun x hx => bne_iff_ne.mpr (htags x hx).2.1)
  have hdoc : saveDraftData uid ⟨none, some title, some tags, some url⟩
      = ⟨uid, title, tags, url, Status.draft⟩ := by
    unfold saveDraftData
    rw [show jsOrDefault (some title) "Untitled Session" = title from by
        simp [jsOrDefault, ht0],
      show jsOrDefault (some url) "" = url from by
        by_cases h : url = "" <;> simp [jsOrDefault, h],
      show tagsOfBody (some tags) = tags from by
        simp only [tagsOfBody]; exact hfil]
  have hnorm : normalizeDoc (⟨uid, title, tags, url, Status.draft⟩ : SessionDoc)
      = ⟨uid, title, tags, url, Status.draft⟩ := by
    simp [normalizeDoc, ht, hu, hmap]
  have hval : validateDoc (⟨uid, title, tags, url, Status.draft⟩ : SessionDoc) = true := by
    simp only [validateDoc, Bool.and_eq_true, bne_iff_ne, ne_eq, decide_eq_true_eq,
      List.all_eq_true]
    exact ⟨⟨⟨⟨ht0, htl⟩, fun x hx => (htags x hx).2.2⟩, hu0⟩, hup⟩
  constructor
  · unfold saveDraftRoute writeSession
    rw [show (⟨none, some title, some tags, some url⟩ : SessionBody).id = none from rfl,
      hdoc, hnorm, hval]
    simp [jsTruthy]
  · unfold getSessionRoute findOwned
    simp [List.find?]

/-- Witness for `saveDraft_roundtrip_normalized`: a normalized buffer
round-trips unchanged through save-draft and load-by-id. -/
theorem saveDraft_roundtrip_normalized_witness :
    saveDraftRoute [] "u1" ⟨none, some "morning flow", some ["yoga"], some "https://example.com/d.json"⟩ "s1"
      = Except.ok ([("s1", ⟨"u1", "morning flow", ["yoga"], "https://example.com/d.json", Status.draft⟩)],
          "s1", ⟨"u1", "morning flow", ["yoga"], "https://example.com/d.json", Status.draft⟩) ∧
    getSessionRoute
        [("s1", ⟨"u1", "morning flow", ["yoga"], "https://example.com/d.json", Status.draft⟩)]
        "u1" "s1"
      = Except.ok ⟨"u1", "morning flow", ["yoga"], "https://example.com/d.json", Status.draft⟩ :=
  saveDraft_roundtrip_normalized [] "u1" "s1" "morning flow" "https://example.com/d.json"
    ["yoga"] rfl (by decide) (by decide) (by decide) rfl rfl

/-- C2: an editor buffer whose trimmed title is empty, whose trimmed data
URL is empty and whose tag list is empty never triggers the automatic
persist: the timer-fired `autoSave` no-ops, leaving the whole component
state — `isSaving`, the buffer, `lastSaved` — unchanged and issuing no
network save. -/
theorem autoSave_empty_buffer_noop (st : EditorState)
    (ht : jsTrim st.session.title = "")
    (hu : jsTrim st.session.json_file_url = "")
    (hg : st.session.tags = []) :
    autoSaveStep st = (st, none) := by
  have hb : emptyBuffer st.session = true := by
    simp [emptyBuffer, ht, hu, hg]
  simp [autoSaveStep, hb]

/-- Witness for `autoSave_empty_buffer_noop`: the empty buffer of an
editor whose URL field was cleared. -/
theorem autoSave_empty_buffer_noop_witness :
    autoSaveStep { session := { initialSession with json_file_url := "" }
                 , hasUnsavedChanges := true, isSaving := false, lastSaved := none }
      = ({ session := { initialSession with json_file_url := "" }
         , hasUnsavedChanges := true, isSaving := false, lastSaved := none }, none) :=
  autoSave_empty_buffer_noop _ rfl rfl rfl

/-- C4: while a persist is in flight (`isSaving = true`), a timer-fired
automatic persist and a Save Draft click are both ignored — no state
change, no request — rather than queued; and from an idle state a first
Save Draft click issues exactly one request while an immediately
following second click is ignored, so two rapid explicit saves yield one
persist. -/
theorem single_flight_guard (st : EditorState) (h : st.isSaving = true) :
    autoSaveStep st = (st, none) ∧ saveDraftClick st = (st, none) ∧
    (∀ st₀ : EditorState, st₀.isSaving = false →
      (saveDraftClick st₀).2 = some st₀.session ∧
      saveDraftClick (saveDraftClick st₀).1 = ((saveDraftClick st₀).1, none)) := by
  refine ⟨?_, ?_, ?_⟩
  · simp [autoSaveStep, h]
  · simp [saveDraftClick, h]
  · intro st₀ h₀
    simp [saveDraftClick, handleSaveDraftStep, h₀]

/-- Witness for `single_flight_guard`: an in-flight save ignores the
timer-fired persist. -/
theorem single_flight_guard_witness :
    autoSaveStep { session := initialSession, hasUnsavedChanges := true
                 , isSaving := true, lastSaved := none }
      = ({ session := initialSession, hasUnsavedChanges := true
         , isSaving := true, lastSaved := none }, none) :=
  (single_flight_guard _ rfl).1

/-- C9: the initial editor buffer pre-fills the data URL with
`https://example.com/data/users.json` and status draft, so the
empty-buffer condition is false initially; indeed the empty-buffer
suppression can never apply while the trimmed URL field is non-empty,
whatever the title and tags. -/
theorem initial_buffer_not_empty :
    initialSession.title = "" ∧ initialSession.tags = [] ∧
    initialSession.json_file_url = "https://example.com/data/users.json" ∧
    initialSession.status = Status.draft ∧
    emptyBuffer initialSession = false ∧
    (∀ s : EditorSession, jsTrim s.json_file_url ≠ "" → emptyBuffer s = false) := by
  refine ⟨rfl, rfl, rfl, rfl, by decide, ?_⟩
  intro s hs
  cases hbe : (jsTrim s.json_file_url == "") with
  | false => simp [emptyBuffer, hbe]
  | true => exact absurd (eq_of_beq hbe) hs

/-- Witness for `initial_buffer_not_empty`: a buffer with the pre-filled
URL and edits elsewhere is still not empty. -/
theorem initial_buffer_not_empty_witness :
    emptyBuffer { initialSession with title := "hi" } = false :=
  initial_buffer_not_empty.2.2.2.2.2 { initialSession with title := "hi" } (by decide)

/-- C7 (amended): a request with a missing or expired bearer token, or a
decoded token whose user no longer exists, is answered 401, and on any
401 the client interceptor tears down the stored session (removes token
and user) and redirects to the login page.  A malformed token is instead
answered 403 — see `invalid_token_gets_403` — which the client only
surfaces as an error. -/
theorem auth_failure_teardown (findUser : String → Bool)
    (verify : String → VerifyOutcome) (token : Option String) :
    (token = none → authenticateToken findUser verify token = Except.error 401) ∧
    (∀ t, token = some t → verify t = VerifyOutcome.expired →
      authenticateToken findUser verify token = Except.error 401) ∧
    (∀ t u, token = some t → verify t = VerifyOutcome.ok u → findUser u = false →
      authenticateToken findUser verify token = Except.error 401) ∧
    responseInterceptor 401 = ClientReaction.teardownAndRedirect := by
  refine ⟨?_, ?_, ?_, rfl⟩
  · intro h; subst h; rfl
  · intro t ht hv; subst ht; simp [authenticateToken, hv]
  · intro t u ht hv hf; subst ht; simp [authenticateToken, hv, hf]

/-- Witness for `auth_failure_teardown`: an expired token is answered
401. -/
theorem auth_failure_teardown_witness :
    authenticateToken (fun _ => true) (fun _ => VerifyOutcome.expired) (some "tok")
      = Except.error 401 :=
  (auth_failure_teardown (fun _ => true) (fun _ => VerifyOutcome.expired)
    (some "tok")).2.1 "tok" rfl rfl

/-- C7 counterexample: an invalid (malformed) bearer token is answered
with status 403, not 401, and a 403 response does not trigger the client
session teardown. -/
theorem invalid_token_gets_403 :
    authenticateToken (fun _ => true) (fun _ => VerifyOutcome.malformed) (some "bad")
        = Except.error 403 ∧
    responseInterceptor 403 = ClientReaction.surfaceError ∧ (403 : Nat) ≠ 401 :=
  ⟨rfl, rfl, by decide⟩

/-- Under a chain of edits each arriving within 5 seconds of the previous
one, the deadline armed 5 seconds after an edit keeps being cancelled and
re-armed by the next edit, and the single fire lands 5 seconds after the
last edit. -/
theorem debounceFires_chain (ts : List Nat) : ∀ t : Nat,
    List.Chain (fun a b => a ≤ b ∧ b < a + 5) t ts →
    debounceFires 5 ts (some (t + 5)) = [ts.getLastD t + 5] := by
  induction ts with
  | nil => intro t _; rfl
  | cons u us ih =>
    intro t h
    rw [List.chain_cons] at h
    obtain ⟨⟨_, hlt⟩, hch⟩ := h
    have hnot : ¬ (t + 5 ≤ u) := by omega
    simp only [debounceFires]
    rw [if_neg hnot, ih u hch, List.getLastD_cons]

/-- C1: for every sequence of field edits in which each edit arrives
within 5 seconds of the previous one, every edit cancels the pending
timer and arms a fresh 5-second one, so the debounced automatic persist
fires exactly once, exactly 5 seconds after the last edit — never while
edits are still arriving. -/
theorem debounce_single_fire (t : Nat) (ts : List Nat)
    (h : List.Chain (fun a b => a ≤ b ∧ b < a + 5) t ts) :
    debounceFires 5 (t :: ts) none = [(t :: ts).getLastD 0 + 5] := by
  have h1 := debounceFires_chain ts t h
  simp only [debounceFires]
  rw [h1, List.getLastD_cons]

/-- Witness for `debounce_single_fire`: edits at times 0, 3 and 6 produce
a single automatic persist at time 11. -/
theorem debounce_single_fire_witness :
    debounceFires 5 [0, 3, 6] none = [[0, 3, 6].getLastD 0 + 5] :=
  debounce_single_fire 0 [3, 6] (by
    rw [List.chain_cons, List.chain_cons]
    exact ⟨⟨by omega, by omega⟩, ⟨by omega, by omega⟩, List.Chain.nil⟩)

/-- C3: publish is validated at call time — an empty trimmed title, an
empty trimmed URL, or a URL that does not start with `http://` or
`https://` makes `handlePublish` return a rejection (so the persistence
layer is never contacted), and the rejection message names the failing
field: the title message for an empty title, the URL-required message for
an empty URL, and the URL-format message otherwise. -/
theorem handlePublish_rejects_invalid (g : String → Bool) (st : EditorState)
    (h : jsTrim st.session.title = "" ∨ jsTrim st.session.json_file_url = "" ∨
         (jsStartsWith st.session.json_file_url "http://" = false ∧
          jsStartsWith st.session.json_file_url "https://" = false)) :
    (∃ msg, handlePublish g st = PublishOutcome.rejected msg) ∧
    (jsTrim st.session.title = "" →
      handlePublish g st = PublishOutcome.rejected "Title is required for publishing") ∧
    (jsTrim st.session.title ≠ "" → jsTrim st.session.json_file_url = "" →
      handlePublish g st = PublishOutcome.rejected "JSON file URL is required for publishing") ∧
    (jsTrim st.session.title ≠ "" → jsTrim st.session.json_file_url ≠ "" →
      handlePublish g st =
        PublishOutcome.rejected "Please enter a valid URL (must start with http:// or https://)") := by
  by_cases ht : jsTrim st.session.title = ""
  · have he : handlePublish g st = PublishOutcome.rejected "Title is required for publishing" := by
      simp [handlePublish, ht]
    exact ⟨⟨_, he⟩, fun _ => he, fun hn _ => absurd ht hn, fun hn _ => absurd ht hn⟩
  · by_cases hu : jsTrim st.session.json_file_url = ""
    · have he : handlePublish g st
          = PublishOutcome.rejected "JSON file URL is required for publishing" := by
        simp [handlePublish, ht, hu]
      exact ⟨⟨_, he⟩, fun hx => absurd hx ht, fun _ _ => he, fun _ hn => absurd hu hn⟩
    · rcases h with h1 | h2 | h3
      · exact absurd h1 ht
      · exact absurd h2 hu
      · have he : handlePublish g st
            = PublishOutcome.rejected "Please enter a valid URL (must start with http:// or https://)" := by
          simp [handlePublish, validateUrl, ht, hu, h3.1, h3.2]
        exact ⟨⟨_, he⟩, fun hx => absurd hx ht, fun _ hx => absurd hx hu, fun _ _ => he⟩

/-- Witness for `handlePublish_rejects_invalid`: publishing the initial
buffer (empty title) is rejected with the title message. -/
theorem handlePublish_rejects_invalid_witness :
    handlePublish (fun _ => true)
        { session := initialSession, hasUnsavedChanges := false
        , isSaving := false, lastSaved := none }
      = PublishOutcome.rejected "Title is required for publishing" :=
  (handlePublish_rejects_invalid (fun _ => true)
    { session := initialSession, hasUnsavedChanges := false
    , isSaving := false, lastSaved := none } (Or.inl rfl)).2.1 rfl

/-- C10: for both list endpoints the pagination fields are mutually
consistent — for page ≥ 1 and limit ≥ 1, `hasNextPage` (computed as
`page * limit < total`) holds exactly when `currentPage < totalPages`
with `totalPages = ceil(total / limit)`. -/
theorem pagination_consistent (page limit total : Nat)
    (_hp : 1 ≤ page) (hl : 1 ≤ limit) :
    ((paginationOf page limit total).hasNextPage = true ↔
      (paginationOf page limit total).currentPage <
        (paginationOf page limit total).totalPages) := by
  simp only [paginationOf, decide_eq_true_eq]
  rw [@Nat.lt_iff_add_one_le page ((total + limit - 1) / limit),
    Nat.le_div_iff_mul_le hl, Nat.add_mul, Nat.one_mul]
  generalize page * limit = m
  omega

/-- Witness for `pagination_consistent`: page 1, limit 20, 45 records. -/
theorem pagination_consistent_witness :
    ((paginationOf 1 20 45).hasNextPage = true ↔
      (paginationOf 1 20 45).currentPage < (paginationOf 1 20 45).totalPages) :=
  pagination_consistent 1 20 45 (by decide) (by decide)

end Wellness
